import Mathlib

/-!
Verification of the validation-error normalization layer of the
NextNodeSolutions/validation repository.

The development shallowly embeds the error-formatting core
(`DefaultErrorFormatter` from `src/lib/errors/types.ts` together with the
error-code taxonomy of `src/lib/errors/codes.ts`), the schema wrapper
(`validate` / `parse` / `safeParse` and `ValidationError` from the core
engine), and the API-key schema factory (`apiKeyWithPrefix`, exported as
`createApiKey`, from `src/lib/schemas/auth.ts`).

JavaScript string primitives used by the source (`includes`, `split`,
`trim`, `toLowerCase`, and the two numeric regular expressions
`/at least (\d+)/i`, `/at most (\d+)/i`, `/at least (\d+) character/i`)
are modelled as executable functions over the character list of the
string.
-/

/-- Character-list model of JavaScript `String.prototype.startsWith`. -/
def listStartsWith : List Char → List Char → Bool
  | [], _ => true
  | _ :: _, [] => false
  | a :: as, b :: bs => a == b && listStartsWith as bs

/-- Scan of a haystack for a needle, used to model `String.prototype.includes`. -/
def listContainsSub (needle : List Char) : List Char → Bool
  | [] => listStartsWith needle []
  | c :: cs => listStartsWith needle (c :: cs) || listContainsSub needle cs

/-- Model of JavaScript `haystack.includes(needle)`. -/
def strIncludes (s sub : String) : Bool :=
  listContainsSub sub.data s.data

/-- Model of JavaScript `String.prototype.toLowerCase` (ASCII, which is all the
source's keyword tables need). -/
def strLower (s : String) : String :=
  String.mk (s.data.map Char.toLower)

/-- Whitespace recognizer for `trim`. -/
def isSpaceChar (c : Char) : Bool :=
  c == ' ' || c == '\t' || c == '\n' || c == '\r'

/-- Model of JavaScript `String.prototype.trim`. -/
def strTrim (s : String) : String :=
  String.mk (((s.data.dropWhile isSpaceChar).reverse.dropWhile isSpaceChar).reverse)

/-- Helper for `splitOnChar`: accumulates the current fragment. -/
def splitOnCharAux (c : Char) : List Char → List Char → List String
  | [], acc => [String.mk acc.reverse]
  | h :: t, acc =>
      if h == c then String.mk acc.reverse :: splitOnCharAux c t []
      else splitOnCharAux c t (h :: acc)

/-- Model of JavaScript `s.split(sep)` for a one-character separator. -/
def splitOnChar (c : Char) (s : String) : List String :=
  splitOnCharAux c s.data []

/-- Longest digit run at the head of a character list, with the remainder. -/
def takeDigits : List Char → List Char × List Char
  | [] => ([], [])
  | c :: cs =>
      if c.isDigit then
        let r := takeDigits cs
        (c :: r.1, r.2)
      else ([], c :: cs)

/-- Decimal value of a digit run (JavaScript `Number.parseInt(_, 10)`). -/
def digitsToNat (ds : List Char) : Nat :=
  ds.foldl (fun acc c => acc * 10 + (c.toNat - '0'.toNat)) 0

/-- Attempted match of the pattern "pat (\d+) tail" at the head of a list. -/
def matchNumAt (pat tail l : List Char) : Option Nat :=
  if listStartsWith pat l then
    let rest := l.drop pat.length
    let dr := takeDigits rest
    if !dr.1.isEmpty && listStartsWith tail dr.2 then some (digitsToNat dr.1)
    else none
  else none

/-- Left-to-right scan applying `matchNumAt` at every position, as a regex
engine does for an unanchored pattern. -/
def scanNum (pat tail : List Char) : List Char → Option Nat
  | [] => none
  | c :: cs =>
      match matchNumAt pat tail (c :: cs) with
      | some n => some n
      | none => scanNum pat tail cs

/-- Model of `expected.match(/at least (\d+)/i)` returning the captured number. -/
def regexAtLeast (s : String) : Option Nat :=
  scanNum "at least ".data [] (strLower s).data

/-- Model of `expected.match(/at most (\d+)/i)` returning the captured number. -/
def regexAtMost (s : String) : Option Nat :=
  scanNum "at most ".data [] (strLower s).data

/-- Model of `expected.match(/at least (\d+) character/i)`. -/
def regexAtLeastCharacter (s : String) : Option Nat :=
  scanNum "at least ".data " character".data (strLower s).data

/-- Path segment of a validation path: JavaScript `string | number`. -/
inductive PathSeg where
  | str (s : String)
  | idx (n : Nat)
deriving DecidableEq, Repr

/-- Raw failure record produced by the schema engine, the `ArkTypeError`
interface of `src/lib/errors/types.ts` (fields `code`, `expected`, `actual`,
`path`, `message`, `rule`). The `rule` field holds the numeric constraint
value when one applies. -/
structure ArkTypeError where
  code : Option String := none
  expected : Option String := none
  actual : Option String := none
  path : Option (List PathSeg) := none
  message : Option String := none
  rule : Option Nat := none
deriving DecidableEq, Repr

/-- Params attached to an issue. The formatter only ever writes the keys
`min`, `max` and `expected`, so the record is modelled with those three
optional fields; all three absent is the empty params object. -/
structure IssueParams where
  min : Option Nat := none
  max : Option Nat := none
  expected : Option String := none
deriving DecidableEq, Repr

/-- Model of `Object.keys(params).length > 0`. -/
def IssueParams.nonempty (p : IssueParams) : Bool :=
  p.min.isSome || p.max.isSome || p.expected.isSome

/-- Normalized validation issue (`ValidationIssue` of `core/types.ts`):
`path` and `params` are optional, `code` always present. -/
structure ValidationIssue where
  path : Option (List PathSeg)
  code : String
  params : Option IssueParams
deriving DecidableEq, Repr

/-- Error code taxonomy of `src/lib/errors/codes.ts` (the codes the claims
use). -/
def ErrorCodes.INVALID_TYPE : String := "invalid_type"

def ErrorCodes.REQUIRED : String := "required"

def ErrorCodes.STRING_MIN : String := "string_min"

def ErrorCodes.STRING_MAX : String := "string_max"

def ErrorCodes.STRING_PATTERN : String := "string_pattern"

def ErrorCodes.INVALID_EMAIL : String := "invalid_email"

def ErrorCodes.INVALID_URL : String := "invalid_url"

def ErrorCodes.INVALID_UUID : String := "invalid_uuid"

def ErrorCodes.INVALID_DATE : String := "invalid_date"

def ErrorCodes.INVALID_JSON : String := "invalid_json"

def ErrorCodes.INVALID_BASE64 : String := "invalid_base64"

def ErrorCodes.INVALID_HEX : String := "invalid_hex"

def ErrorCodes.INVALID_FORMAT : String := "invalid_format"

def ErrorCodes.NOT_INTEGER : String := "not_integer"

def ErrorCodes.NUMBER_MIN : String := "number_min"

def ErrorCodes.NUMBER_MAX : String := "number_max"

def ErrorCodes.ARRAY_MIN : String := "array_min"

def ErrorCodes.ARRAY_MAX : String := "array_max"

def ErrorCodes.INVALID_CREDIT_CARD : String := "invalid_credit_card"

def ErrorCodes.INVALID_IP : String := "invalid_ip"

def ErrorCodes.INVALID_IPV4 : String := "invalid_ipv4"

def ErrorCodes.INVALID_IPV6 : String := "invalid_ipv6"

def ErrorCodes.PASSWORD_NO_UPPERCASE : String := "password_no_uppercase"

def ErrorCodes.PASSWORD_NO_LOWERCASE : String := "password_no_lowercase"

def ErrorCodes.PASSWORD_NO_NUMBER : String := "password_no_number"

def ErrorCodes.PASSWORD_NO_SPECIAL : String := "password_no_special"

def ErrorCodes.PREDICATE : String := "predicate"

/-- DefaultErrorFormatter.createIssue: builds a ValidationIssue, spreading
`path` only when non-empty and `params` only when provided. -/
def createIssue (path : List PathSeg) (code : String) (params : Option IssueParams) :
    ValidationIssue :=
  { path := if path.length > 0 then some path else none
    code := code
    params := params }

/-- DefaultErrorFormatter.mapErrorCodeFromExpected: keyword mapping for a
split compound fragment. -/
def mapErrorCodeFromExpected (expected : String) : String :=
  let lower := strLower expected
  if strIncludes lower "character" then ErrorCodes.STRING_MIN
  else if strIncludes lower "uppercase" then ErrorCodes.PASSWORD_NO_UPPERCASE
  else if strIncludes lower "lowercase" then ErrorCodes.PASSWORD_NO_LOWERCASE
  else if strIncludes lower "number" || strIncludes lower "digit" then
    ErrorCodes.PASSWORD_NO_NUMBER
  else if strIncludes lower "special" then ErrorCodes.PASSWORD_NO_SPECIAL
  else ErrorCodes.PREDICATE

/-- DefaultErrorFormatter.extractParamsFromExpected: extracts the
"at least N characters" minimum from a compound fragment. -/
def extractParamsFromExpected (expected : String) : Option IssueParams :=
  match regexAtLeastCharacter expected with
  | some n => some { min := some n, max := none, expected := none }
  | none => none

/-- DefaultErrorFormatter.mapErrorCode: priority-ordered code inference for a
full (non-compound) raw failure. -/
def mapErrorCode (error : ArkTypeError) : String :=
  let expected := strLower (error.expected.getD "")
  let message := strLower (error.message.getD "")
  if strIncludes expected "email" then ErrorCodes.INVALID_EMAIL
  else if strIncludes expected "url" then ErrorCodes.INVALID_URL
  else if strIncludes expected "uuid" then ErrorCodes.INVALID_UUID
  else if strIncludes expected "date" then ErrorCodes.INVALID_DATE
  else if strIncludes expected "json" then ErrorCodes.INVALID_JSON
  else if strIncludes expected "base64" then ErrorCodes.INVALID_BASE64
  else if strIncludes expected "hex" then ErrorCodes.INVALID_HEX
  else if strIncludes expected "integer" then ErrorCodes.NOT_INTEGER
  else if strIncludes expected "creditcard" || strIncludes expected "credit card" then
    ErrorCodes.INVALID_CREDIT_CARD
  else if strIncludes expected "ip" then
    if strIncludes expected "v4" then ErrorCodes.INVALID_IPV4
    else if strIncludes expected "v6" then ErrorCodes.INVALID_IPV6
    else ErrorCodes.INVALID_IP
  else if error.code == some "minLength" || strIncludes message "must be at least" then
    ErrorCodes.STRING_MIN
  else if error.code == some "maxLength" || strIncludes message "must be at most" then
    ErrorCodes.STRING_MAX
  else if error.code == some "predicate" then ErrorCodes.PREDICATE
  else if error.code == some "required" || expected == "required" then ErrorCodes.REQUIRED
  else error.code.getD ErrorCodes.INVALID_TYPE

/-- Codes treated as minimum-style by extractParams. -/
def isMinCode (code : String) : Bool :=
  code == ErrorCodes.STRING_MIN || code == ErrorCodes.ARRAY_MIN ||
    code == ErrorCodes.NUMBER_MIN

/-- Codes treated as maximum-style by extractParams. -/
def isMaxCode (code : String) : Bool :=
  code == ErrorCodes.STRING_MAX || code == ErrorCodes.ARRAY_MAX ||
    code == ErrorCodes.NUMBER_MAX

/-- JavaScript falsiness of an optional number (`!params.min` is true both
when the key is absent and when it holds 0). -/
def jsFalsyNum : Option Nat → Bool
  | none => true
  | some 0 => true
  | some (_ + 1) => false

/-- Rule-derived minimum: `params.min = error.rule` when the rule is present
and the code is minimum-style. -/
def ruleMin (error : ArkTypeError) (code : String) : Option Nat :=
  match error.rule with
  | none => none
  | some r => if isMinCode code then some r else none

/-- Rule-derived maximum (the `else if` branch of the rule extraction). -/
def ruleMax (error : ArkTypeError) (code : String) : Option Nat :=
  match error.rule with
  | none => none
  | some r =>
      if isMinCode code then none
      else if isMaxCode code then some r
      else none

/-- Regex fallback for the minimum: fires only when `expected` is truthy,
matches `/at least (\d+)/i`, and the current `params.min` is JS-falsy. -/
def fallbackMin (error : ArkTypeError) (m0 : Option Nat) : Option Nat :=
  match error.expected with
  | none => m0
  | some exp =>
      if exp == "" then m0
      else
        match regexAtLeast exp with
        | some n => if jsFalsyNum m0 then some n else m0
        | none => m0

/-- Regex fallback for the maximum, mirroring `fallbackMin` with
`/at most (\d+)/i`. -/
def fallbackMax (error : ArkTypeError) (m0 : Option Nat) : Option Nat :=
  match error.expected with
  | none => m0
  | some exp =>
      if exp == "" then m0
      else
        match regexAtMost exp with
        | some n => if jsFalsyNum m0 then some n else m0
        | none => m0

/-- Expected-type param: for invalid-type codes the raw truthy `expected`
string is surfaced as `params.expected`. -/
def typeParam (error : ArkTypeError) (code : String) : Option String :=
  if code == ErrorCodes.INVALID_TYPE then
    match error.expected with
    | none => none
    | some s => if s == "" then none else some s
  else none

/-- DefaultErrorFormatter.extractParams: constraint-param extraction; the
params object is returned only when at least one key was written. -/
def extractParams (error : ArkTypeError) (code : String) : Option IssueParams :=
  let result : IssueParams :=
    { min := fallbackMin error (ruleMin error code)
      max := fallbackMax error (ruleMax error code)
      expected := typeParam error code }
  if result.nonempty then some result else none

/-- DefaultErrorFormatter.splitCompoundError: splits a bullet-joined
compound `expected` into one independently mapped issue per non-empty
trimmed fragment; non-compound failures yield the empty list. -/
def splitCompoundError (error : ArkTypeError) (path : List PathSeg) :
    List ValidationIssue :=
  let expected := error.expected.getD ""
  if strIncludes expected "◦" then
    (((splitOnChar '◦' expected).map strTrim).filter (fun s => s.length > 0)).map
      (fun failure =>
        createIssue path (mapErrorCodeFromExpected failure)
          (extractParamsFromExpected failure))
  else []

/-- Path composition of the format loop: basePath concatenated with the raw
failure's own path (defaulting to empty). -/
def composePath (basePath : List PathSeg) (error : ArkTypeError) : List PathSeg :=
  basePath ++ error.path.getD []

/-- Body of the format loop for one raw failure: compound failures fan out
into their split issues, anything else maps to a single issue. -/
def formatOne (basePath : List PathSeg) (error : ArkTypeError) : List ValidationIssue :=
  if (splitCompoundError error (composePath basePath error)).length > 0 then
    splitCompoundError error (composePath basePath error)
  else
    [createIssue (composePath basePath error) (mapErrorCode error)
      (extractParams error (mapErrorCode error))]

/-- DefaultErrorFormatter.format: iterates the raw failures, accumulating the
issues of each (the source's basePath parameter defaults to the empty path;
here it is always passed explicitly). -/
def format (arkErrors : List ArkTypeError) (basePath : List PathSeg) :
    List ValidationIssue :=
  arkErrors.flatMap (formatOne basePath)

/-- Input value given to a schema (the JavaScript `unknown` at the validate
boundary, restricted to the primitive shapes the claims exercise). -/
inductive Value where
  | str (s : String)
  | num (n : Int)
  | boolV (b : Bool)
  | nullV
deriving DecidableEq, Repr

/-- Discriminated validation result: `{success: true, data}` or
`{success: false, issues}`. -/
inductive ValidationResult (T : Type) where
  | success (data : T)
  | failure (issues : List ValidationIssue)
deriving DecidableEq, Repr

/-- Result of invoking the underlying engine descriptor on a value: the
accepted (possibly coerced) value, or the iterable of raw failures. -/
inductive EngineResult (T : Type) where
  | ok (data : T)
  | errs (failures : List ArkTypeError)

/-- Schema wrapper: owns the underlying engine descriptor (`_type`). -/
structure Schema (T : Type) where
  _type : Value → EngineResult T

/-- Error thrown by `parse`: carries the issue list; its message is the
"Validation failed:" summary of comma-joined issue codes. -/
structure ValidationError where
  issues : List ValidationIssue
  message : String
deriving DecidableEq, Repr

/-- ValidationError constructor: builds the summary message from the codes. -/
def mkValidationError (issues : List ValidationIssue) : ValidationError :=
  { issues := issues
    message := "Validation failed: " ++ String.intercalate ", " (issues.map (fun i => i.code)) }

/-- Schema.validate: invokes the engine; failures are passed through the
default error formatter (with the default empty base path). -/
def Schema.validate {T : Type} (s : Schema T) (data : Value) : ValidationResult T :=
  match s._type data with
  | EngineResult.ok d => ValidationResult.success d
  | EngineResult.errs fs => ValidationResult.failure (format fs [])

/-- Schema.parse: calls validate and throws (models the throw as `Except.error`)
a ValidationError carrying the issues on failure. -/
def Schema.parse {T : Type} (s : Schema T) (data : Value) : Except ValidationError T :=
  match s.validate data with
  | ValidationResult.success d => Except.ok d
  | ValidationResult.failure issues => Except.error (mkValidationError issues)

/-- Schema.safeParse: returns `this.validate(data)`. -/
def Schema.safeParse {T : Type} (s : Schema T) (data : Value) : ValidationResult T :=
  s.validate data

/-- Success discriminant of a result. -/
def ValidationResult.isSuccess {T : Type} : ValidationResult T → Bool
  | ValidationResult.success _ => true
  | ValidationResult.failure _ => false

/-- Issue list of a result (empty on the success variant, where the
JavaScript union has no `issues` key). -/
def ValidationResult.issuesOf {T : Type} : ValidationResult T → List ValidationIssue
  | ValidationResult.success _ => []
  | ValidationResult.failure issues => issues

/-- Character class `[A-Za-z0-9]` of the API-key regular expression
(`Char.isAlphanum` is exactly ASCII letters and digits). -/
def isApiKeyBodyChar (c : Char) : Bool :=
  c.isAlphanum

/-- Acceptance of the anchored regular expression
`^pfx_[A-Za-z0-9]\x7b32,\x7d$` built by the API-key factory: the string is the
prefix, an underscore, then at least 32 alphanumeric characters to the end. -/
def apiKeyRegexAccepts (pfx s : String) : Bool :=
  listStartsWith (pfx.data ++ ['_']) s.data &&
    (decide (32 ≤ (s.data.drop (pfx.data.length + 1)).length) &&
      (s.data.drop (pfx.data.length + 1)).all isApiKeyBodyChar)

/-- Source text of the API-key regular expression for a given prefix. -/
def apiKeyRegexText (pfx : String) : String :=
  "^" ++ pfx ++ "_[A-Za-z0-9]\x7b32,\x7d$"

/-- Modelled from the spec: the underlying structural type-checking engine is
out of scope (spec section 6) and its code is not in this repository; on a
regular-expression schema mismatch it is modelled as reporting one root-level
RawFailure whose `code` is the engine-internal pattern classification and
whose `expected` is free-text prose naming the regex, following the spec's
RawFailure example "a string matching /^[A-Z]\x7b3\x7d$/" (spec section 3). -/
def regexRawFailure (pat : String) : ArkTypeError :=
  { code := some "pattern"
    expected := some ("a string matching /" ++ pat ++ "/")
    actual := none
    path := none
    message := none
    rule := none }

/-- Modelled from the spec: the engine descriptor obtained from the API-key
regular expression. It accepts exactly the matching strings unchanged and
rejects anything else with the single pattern failure above. -/
def apiKeyArkType (pfx : String) : Value → EngineResult String :=
  fun v =>
    match v with
    | Value.str s =>
        if apiKeyRegexAccepts pfx s then EngineResult.ok s
        else EngineResult.errs [regexRawFailure (apiKeyRegexText pfx)]
    | _ => EngineResult.errs [regexRawFailure (apiKeyRegexText pfx)]

/-- Character class `[a-zA-Z0-9_]` of the prefix guard. -/
def validPrefixChar (c : Char) : Bool :=
  c.isAlphanum || c == '_'

/-- Model of `/^[a-zA-Z0-9_]+$/.test(pfx)`: non-empty and every character in
the class. -/
def prefixRegexTest (p : String) : Bool :=
  decide (p.length > 0) && p.data.all validPrefixChar

/-- Message of the Error thrown on an invalid API-key prefix. -/
def apiKeyPrefixErrorMsg : String :=
  "API key prefix must contain only alphanumeric characters or underscores"

/-- The API-key schema factory (`apiKeyWithPrefix` in `src/lib/schemas/auth.ts`,
exported as `createApiKey`): throws (modelled as `Except.error`) when the
prefix fails the guard, otherwise wraps the regex engine descriptor. -/
def createApiKey (p : String) : Except String (Schema String) :=
  if prefixRegexTest p then Except.ok { _type := apiKeyArkType p }
  else Except.error apiKeyPrefixErrorMsg

/-- Raw failure with the compound password `expected` text of claim C1. -/
def compoundPasswordFailure : ArkTypeError :=
  { expected := some "at least 8 characters◦an uppercase letter◦a number" }

/-- Raw failure whose engine code is `predicate` while its `expected` text
contains the format keyword `email`. -/
def predicateEmailFailure : ArkTypeError :=
  { code := some "predicate", expected := some "an email address" }

/-- Raw failure carrying both a zero `rule` value and an extractable
"at least 5" phrase in `expected`. -/
def zeroRuleFailure : ArkTypeError :=
  { code := some "minLength", expected := some "at least 5 characters", rule := some 0 }

/-- Raw failure that maps to the invalid_type fallback code while carrying a
present-but-empty `expected` string. -/
def emptyExpectedFailure : ArkTypeError :=
  { code := none, expected := some "" }

/-- Raw failure whose `expected` consists of the compound delimiter alone, so
every split fragment trims to empty. -/
def degenerateCompoundFailure : ArkTypeError :=
  { expected := some "◦" }

/-- Raw failure used to exercise the failing path of the schema wrapper. -/
def invalidValueFailure : ArkTypeError :=
  { code := some "predicate", expected := some "a nonempty value" }

/-- Schema whose engine descriptor rejects every input with one failure. -/
def demoFailSchema : Schema Value :=
  { _type := fun _ => EngineResult.errs [invalidValueFailure] }

/-- String of 32 letters A, the shortest body the API-key regex accepts. -/
def thirtyTwoAs : String :=
  String.mk (List.replicate 32 'A')

/-- C1 (compound fan-out): a RawFailure whose `expected` text is
"at least 8 characters◦an uppercase letter◦a number" is formatted into
exactly three issues sharing the composed path, with codes string_min,
password_no_uppercase and password_no_number, the first carrying
params.min = 8. -/
theorem compound_fanout_c1 (e : ArkTypeError) (bp : List PathSeg)
    (h : e.expected = some "at least 8 characters◦an uppercase letter◦a number") :
    format [e] bp =
      [createIssue (composePath bp e) ErrorCodes.STRING_MIN
          (some { min := some 8, max := none, expected := none }),
        createIssue (composePath bp e) ErrorCodes.PASSWORD_NO_UPPERCASE none,
        createIssue (composePath bp e) ErrorCodes.PASSWORD_NO_NUMBER none] := by
  obtain ⟨c, exp, act, pth, msg, rl⟩ := e
  simp only at h
  subst h
  rfl

/-- Witness for C1 at the concrete compound failure record. -/
theorem compound_fanout_c1_witness :
    format [compoundPasswordFailure] [] =
      [createIssue (composePath [] compoundPasswordFailure) ErrorCodes.STRING_MIN
          (some { min := some 8, max := none, expected := none }),
        createIssue (composePath [] compoundPasswordFailure) ErrorCodes.PASSWORD_NO_UPPERCASE none,
        createIssue (composePath [] compoundPasswordFailure) ErrorCodes.PASSWORD_NO_NUMBER none] :=
  compound_fanout_c1 compoundPasswordFailure [] rfl

/-- C3 counterexample: a raw failure whose engine code equals "predicate" but
whose `expected` contains the format keyword "email" is mapped to
invalid_email, not predicate — the keyword scan runs before the explicit
engine-code equality checks. -/
theorem code_priority_c3_counterexample :
    format [predicateEmailFailure] [] =
      [{ path := none, code := ErrorCodes.INVALID_EMAIL, params := none }] ∧
    ErrorCodes.INVALID_EMAIL ≠ ErrorCodes.PREDICATE :=
  ⟨rfl, by decide⟩

/-- C5 (throw/result equivalence): parse throws a ValidationError carrying
exactly safeParse's issues if and only if safeParse reports failure, and on
success parse returns the success data without throwing. -/
theorem parse_throw_equiv_c5 {T : Type} (s : Schema T) (d : Value) :
    ((s.safeParse d).isSuccess = false ↔
        s.parse d = Except.error (mkValidationError (s.safeParse d).issuesOf)) ∧
    (∀ dt, s.safeParse d = ValidationResult.success dt → s.parse d = Except.ok dt) := by
  unfold Schema.safeParse Schema.parse
  cases hv : s.validate d with
  | success dt => simp [ValidationResult.isSuccess]
  | failure issues => simp [ValidationResult.isSuccess, ValidationResult.issuesOf]

/-- Witness for C5 on a concrete always-failing schema. -/
theorem parse_throw_equiv_c5_witness :
    demoFailSchema.parse Value.nullV =
      Except.error (mkValidationError (demoFailSchema.safeParse Value.nullV).issuesOf) :=
  (parse_throw_equiv_c5 demoFailSchema Value.nullV).1.mp (by rfl)

/-- C6 counterexample: the prod-prefixed API-key schema rejects an sk-prefixed
key with a single issue whose code is the engine's raw "pattern"
classification — not invalid_format and not string_pattern, since the
formatter has no mapping rule emitting either code. -/
theorem scenario_b_c6_counterexample :
    (createApiKey "prod").map
        (fun s => ((s.safeParse (Value.str ("sk_" ++ thirtyTwoAs))).issuesOf.map
          ValidationIssue.code)) =
      Except.ok ["pattern"] ∧
    ("pattern" ≠ ErrorCodes.INVALID_FORMAT ∧ "pattern" ≠ ErrorCodes.STRING_PATTERN) :=
  ⟨rfl, by decide⟩

/-- C6 amended: createApiKey "prod" succeeds on "prod_" plus 32 letters A, and
on "sk_" plus 32 letters A fails with exactly one issue whose path is absent
and whose code is the engine's raw pattern code surfaced by the raw-code
fallback. -/
theorem scenario_b_c6_amended :
    (createApiKey "prod").map (fun s => s.safeParse (Value.str ("prod_" ++ thirtyTwoAs))) =
      Except.ok (ValidationResult.success ("prod_" ++ thirtyTwoAs)) ∧
    (createApiKey "prod").map (fun s => s.safeParse (Value.str ("sk_" ++ thirtyTwoAs))) =
      Except.ok (ValidationResult.failure
        [{ path := none, code := "pattern", params := none }]) :=
  ⟨rfl, rfl⟩

/-- C7 counterexample: with a zero `rule` value present, the regex fallback
still fires (JavaScript falsiness of 0), so params.min is regex-extracted as
5 even though the rule field is present with value 0; and a failure mapped to
invalid_type with a present-but-empty `expected` string (also JS-falsy) does
not surface it as params.expected. -/
theorem param_pref_c7_counterexample :
    zeroRuleFailure.rule = some 0 ∧
    format [zeroRuleFailure] [] =
      [{ path := none, code := ErrorCodes.STRING_MIN,
         params := some { min := some 5, max := none, expected := none } }] ∧
    (some 5 : Option Nat) ≠ some 0 ∧
    emptyExpectedFailure.expected = some "" ∧
    mapErrorCode emptyExpectedFailure = ErrorCodes.INVALID_TYPE ∧
    format [emptyExpectedFailure] [] =
      [{ path := none, code := ErrorCodes.INVALID_TYPE, params := none }] :=
  ⟨rfl, rfl, by decide, rfl, rfl, rfl⟩

/-- C8 counterexample: the empty prefix consists only of characters from the
allowed class (vacuously), yet the factory throws, because the guard regex
requires at least one character. -/
theorem config_fail_fast_c8_counterexample :
    ("" : String).data.all validPrefixChar = true ∧
      createApiKey "" = Except.error apiKeyPrefixErrorMsg :=
  ⟨rfl, rfl⟩

/-- C8 amended: a prefix with any character outside alphanumerics and
underscore makes the factory throw at construction time, and any non-empty
prefix made only of such characters constructs the schema without throwing. -/
theorem config_fail_fast_c8_amended (p : String) :
    (p.data.all validPrefixChar = false →
        createApiKey p = Except.error apiKeyPrefixErrorMsg) ∧
    (p ≠ "" → p.data.all validPrefixChar = true →
        createApiKey p = Except.ok { _type := apiKeyArkType p }) := by
  constructor
  · intro h
    have htest : prefixRegexTest p = false := by
      simp [prefixRegexTest, h]
    unfold createApiKey
    rw [if_neg (by simp [htest])]
  · intro hne hall
    have hlen : 0 < p.length := by
      cases p with
      | mk data =>
        cases data with
        | nil => exact absurd rfl hne
        | cons a l => simp [String.length]
    have htest : prefixRegexTest p = true := by
      simp [prefixRegexTest, hall, hlen]
    unfold createApiKey
    rw [if_pos htest]

/-- Witness for the amended C8 at a concrete valid prefix. -/
theorem config_fail_fast_c8_amended_witness :
    createApiKey "sk9" = Except.ok { _type := apiKeyArkType "sk9" } :=
  (config_fail_fast_c8_amended "sk9").2 (by decide) (by rfl)

/-- C9 (safeParse alias): safeParse returns exactly the result of validate. -/
theorem safeParse_alias_c9 {T : Type} (s : Schema T) (d : Value) :
    s.safeParse d = s.validate d := rfl

/-- C10 (degenerate compound fallback): when `expected` contains the compound
delimiter but every delimited fragment trims to empty, the compound split is
empty and the failure goes through the ordinary single-issue mapping, so
exactly one issue is emitted. -/
theorem degenerate_compound_c10 (e : ArkTypeError) (bp : List PathSeg) (s : String)
    (hexp : e.expected = some s)
    (hbul : strIncludes s "◦" = true)
    (hfrag : ((splitOnChar '◦' s).map strTrim).filter (fun t => t.length > 0) = []) :
    format [e] bp =
      [createIssue (composePath bp e) (mapErrorCode e)
        (extractParams e (mapErrorCode e))] := by
  have hsplit : splitCompoundError e (composePath bp e) = [] := by
    simp only [splitCompoundError, hexp, Option.getD_some]
    rw [if_pos hbul, hfrag]
    rfl
  simp [format, formatOne, hsplit]

/-- Witness for C10 on the failure whose `expected` is a lone delimiter. -/
theorem degenerate_compound_c10_witness :
    format [degenerateCompoundFailure] [] =
      [createIssue (composePath [] degenerateCompoundFailure)
        (mapErrorCode degenerateCompoundFailure)
        (extractParams degenerateCompoundFailure (mapErrorCode degenerateCompoundFailure))] :=
  degenerate_compound_c10 degenerateCompoundFailure [] "◦" rfl (by rfl) (by rfl)

/-- The issue list produced for a single raw failure is never empty: either
the compound split is non-empty, or the single-issue branch runs. -/
theorem formatOne_ne_nil (bp : List PathSeg) (e : ArkTypeError) :
    formatOne bp e ≠ [] := by
  unfold formatOne
  by_cases h : (splitCompoundError e (composePath bp e)).length > 0
  · rw [if_pos h]
    exact List.length_pos.mp h
  · rw [if_neg h]
    simp

/-- The formatter emits at least one issue per raw failure in the input. -/
theorem format_length_ge (errors : List ArkTypeError) (bp : List PathSeg) :
    errors.length ≤ (format errors bp).length := by
  induction errors with
  | nil => simp [format]
  | cons e rest ih =>
      have hcons : format (e :: rest) bp = formatOne bp e ++ format rest bp := rfl
      rw [hcons, List.length_append, List.length_cons]
      have h1 : 1 ≤ (formatOne bp e).length :=
        List.length_pos.mpr (formatOne_ne_nil bp e)
      omega

/-- C2 (totality of formatting): a non-empty raw failure list formats to a
non-empty issue list, every individual raw failure contributes at least one
issue, and the issue count is at least the failure count. The formatter is a
total function (it is defined by structural recursion, so it can never raise). -/
theorem format_totality_c2 (errors : List ArkTypeError) (bp : List PathSeg)
    (h : errors ≠ []) :
    format errors bp ≠ [] ∧ (∀ e ∈ errors, formatOne bp e ≠ []) ∧
      errors.length ≤ (format errors bp).length := by
  refine ⟨?_, fun e _ => formatOne_ne_nil bp e, format_length_ge errors bp⟩
  intro hnil
  have hlen := format_length_ge errors bp
  rw [hnil] at hlen
  have hzero : errors.length ≤ 0 := by simpa using hlen
  exact h (List.length_eq_zero.mp (Nat.le_zero.mp hzero))

/-- Witness for C2 at a concrete singleton failure list. -/
theorem format_totality_c2_witness :
    format [invalidValueFailure] [] ≠ [] ∧
      (∀ e ∈ [invalidValueFailure], formatOne [] e ≠ []) ∧
      ([invalidValueFailure] : List ArkTypeError).length ≤
        (format [invalidValueFailure] []).length :=
  format_totality_c2 [invalidValueFailure] [] (by simp)

/-- Well-formedness of one issue: `path` never present-and-empty, `params`
never present-and-empty. -/
def issueInvariant (i : ValidationIssue) : Bool :=
  (match i.path with
   | none => true
   | some p => decide (p ≠ [])) &&
  (match i.params with
   | none => true
   | some q => q.nonempty)

/-- createIssue establishes the invariant whenever its params argument is
absent or non-empty. -/
theorem createIssue_invariant (p : List PathSeg) (c : String) (prm : Option IssueParams)
    (hprm : prm = none ∨ ∃ q, prm = some q ∧ q.nonempty = true) :
    issueInvariant (createIssue p c prm) = true := by
  unfold issueInvariant createIssue
  rcases hprm with rfl | ⟨q, rfl, hq⟩
  · by_cases hp : p.length > 0
    · simp [if_pos hp, List.length_pos.mp hp]
    · simp [if_neg hp]
  · by_cases hp : p.length > 0
    · simp [if_pos hp, List.length_pos.mp hp, hq]
    · simp [if_neg hp, hq]

/-- Fragment param extraction yields nothing or a non-empty params object. -/
theorem extractParamsFromExpected_sound (s : String) :
    extractParamsFromExpected s = none ∨
      ∃ q, extractParamsFromExpected s = some q ∧ q.nonempty = true := by
  unfold extractParamsFromExpected
  cases h : regexAtLeastCharacter s with
  | none => exact Or.inl rfl
  | some n => exact Or.inr ⟨_, rfl, rfl⟩

/-- The nonempty guard of extractParams only ever emits non-empty params. -/
theorem guardNonempty_sound (r : IssueParams) :
    (if r.nonempty then some r else none) = none ∨
      ∃ q, (if r.nonempty then some r else none) = some q ∧ q.nonempty = true := by
  by_cases h : r.nonempty = true
  · exact Or.inr ⟨r, by rw [if_pos h], h⟩
  · exact Or.inl (by rw [if_neg h])

/-- Full param extraction yields nothing or a non-empty params object. -/
theorem extractParams_sound (e : ArkTypeError) (c : String) :
    extractParams e c = none ∨
      ∃ q, extractParams e c = some q ∧ q.nonempty = true :=
  guardNonempty_sound _

/-- C4 (issue well-formedness invariant): every issue emitted by format has
`path` either absent or non-empty and `params` either absent or non-empty. -/
theorem issue_invariant_c4 (errors : List ArkTypeError) (bp : List PathSeg)
    (i : ValidationIssue) (h : i ∈ format errors bp) :
    issueInvariant i = true := by
  unfold format at h
  rw [List.mem_flatMap] at h
  obtain ⟨e, -, hmem⟩ := h
  unfold formatOne at hmem
  by_cases hs : (splitCompoundError e (composePath bp e)).length > 0
  · rw [if_pos hs] at hmem
    simp only [splitCompoundError] at hmem
    by_cases hb : strIncludes (e.expected.getD "") "◦" = true
    · rw [if_pos hb] at hmem
      rw [List.mem_map] at hmem
      obtain ⟨frag, -, rfl⟩ := hmem
      exact createIssue_invariant _ _ _ (extractParamsFromExpected_sound frag)
    · rw [if_neg hb] at hmem
      simp at hmem
  · rw [if_neg hs] at hmem
    simp only [List.mem_singleton] at hmem
    subst hmem
    exact createIssue_invariant _ _ _ (extractParams_sound e (mapErrorCode e))

/-- Witness for C4 at the issue produced from a concrete failure. -/
theorem issue_invariant_c4_witness :
    issueInvariant { path := none, code := "invalid_email", params := none } = true :=
  issue_invariant_c4 [predicateEmailFailure] [] _ (by decide)


/-- Absence of every format-validator keyword checked by mapErrorCode in a
lower-cased `expected` text. -/
def noFormatKeyword (low : String) : Bool :=
  !strIncludes low "email" && !strIncludes low "url" && !strIncludes low "uuid" &&
    !strIncludes low "date" && !strIncludes low "json" && !strIncludes low "base64" &&
    !strIncludes low "hex" && !strIncludes low "integer" && !strIncludes low "creditcard" &&
    !strIncludes low "credit card" && !strIncludes low "ip"

/-- C3 amended: the keyword scan of `expected` runs first, so the explicit
engine-code equality checks decide the issue code only for failures whose
`expected` contains no format-validator keyword and whose `message` contains
no length-constraint phrase; under those conditions code "predicate" maps to
the predicate code and code "required" maps to the required code. -/
theorem code_priority_c3_amended (e : ArkTypeError)
    (hk : noFormatKeyword (strLower (e.expected.getD "")) = true)
    (hm1 : strIncludes (strLower (e.message.getD "")) "must be at least" = false)
    (hm2 : strIncludes (strLower (e.message.getD "")) "must be at most" = false) :
    (e.code = some "predicate" → mapErrorCode e = ErrorCodes.PREDICATE) ∧
    (e.code = some "required" → mapErrorCode e = ErrorCodes.REQUIRED) := by
  unfold noFormatKeyword at hk
  simp only [Bool.and_eq_true, Bool.not_eq_true'] at hk
  obtain ⟨⟨⟨⟨⟨⟨⟨⟨⟨⟨hk1, hk2⟩, hk3⟩, hk4⟩, hk5⟩, hk6⟩, hk7⟩, hk8⟩, hk9⟩, hk10⟩, hk11⟩ := hk
  constructor
  · intro hc
    simp [mapErrorCode, hc, hk1, hk2, hk3, hk4, hk5, hk6, hk7, hk8, hk9, hk10, hk11,
      hm1, hm2, Bool.or_eq_true, beq_iff_eq]
  · intro hc
    simp [mapErrorCode, hc, hk1, hk2, hk3, hk4, hk5, hk6, hk7, hk8, hk9, hk10, hk11,
      hm1, hm2, Bool.or_eq_true, beq_iff_eq]

/-- Raw predicate failure whose `expected` text contains no keyword of the
inference table. -/
def customRuleFailure : ArkTypeError :=
  { code := some "predicate", expected := some "a custom business rule" }

/-- Witness for the amended C3 at a concrete keyword-free predicate failure. -/
theorem code_priority_c3_amended_witness :
    mapErrorCode customRuleFailure = ErrorCodes.PREDICATE :=
  (code_priority_c3_amended customRuleFailure (by rfl) (by rfl) (by rfl)).1 rfl

/-- Definitional unfolding of extractParams used by the parameter lemmas. -/
theorem extractParams_def (e : ArkTypeError) (c : String) :
    extractParams e c =
      (if ({ min := fallbackMin e (ruleMin e c), max := fallbackMax e (ruleMax e c),
             expected := typeParam e c } : IssueParams).nonempty then
         some { min := fallbackMin e (ruleMin e c), max := fallbackMax e (ruleMax e c),
                expected := typeParam e c }
       else none) := rfl

/-- Rule-derived minimum when the rule is present and the code minimum-style. -/
theorem ruleMin_some (e : ArkTypeError) (c : String) (r : Nat) (hr : e.rule = some r)
    (hc : isMinCode c = true) : ruleMin e c = some r := by
  unfold ruleMin
  rw [hr]
  simp [hc]

/-- Rule-derived minimum is absent when the rule is absent. -/
theorem ruleMin_none_of_rule_none (e : ArkTypeError) (c : String)
    (hr : e.rule = none) : ruleMin e c = none := by
  unfold ruleMin
  rw [hr]

/-- Rule-derived maximum when the rule is present and the code maximum-style. -/
theorem ruleMax_some (e : ArkTypeError) (c : String) (r : Nat) (hr : e.rule = some r)
    (hmin : isMinCode c = false) (hmax : isMaxCode c = true) : ruleMax e c = some r := by
  unfold ruleMax
  rw [hr]
  simp [hmin, hmax]

/-- A maximum-style code is never minimum-style. -/
theorem isMinCode_false_of_isMaxCode (c : String) (h : isMaxCode c = true) :
    isMinCode c = false := by
  unfold isMaxCode at h
  simp only [Bool.or_eq_true, beq_iff_eq] at h
  rcases h with (h | h) | h <;> subst h <;> decide

/-- The regex fallback never overwrites a JS-truthy value. -/
theorem fallbackMin_keeps (e : ArkTypeError) (m0 : Option Nat)
    (h : jsFalsyNum m0 = false) : fallbackMin e m0 = m0 := by
  unfold fallbackMin
  cases e.expected with
  | none => rfl
  | some exp =>
      by_cases he : (exp == "") = true
      · simp [he]
      · cases hr : regexAtLeast exp with
        | none => simp [he, hr]
        | some n => simp [he, hr, h]

/-- The max-side regex fallback never overwrites a JS-truthy value. -/
theorem fallbackMax_keeps (e : ArkTypeError) (m0 : Option Nat)
    (h : jsFalsyNum m0 = false) : fallbackMax e m0 = m0 := by
  unfold fallbackMax
  cases e.expected with
  | none => rfl
  | some exp =>
      by_cases he : (exp == "") = true
      · simp [he]
      · cases hr : regexAtMost exp with
        | none => simp [he, hr]
        | some n => simp [he, hr, h]

/-- With no rule-derived value, the fallback extracts the matched number. -/
theorem fallbackMin_of_match (e : ArkTypeError) (exp : String) (n : Nat)
    (hexp : e.expected = some exp) (hne : exp ≠ "")
    (hm : regexAtLeast exp = some n) : fallbackMin e none = some n := by
  unfold fallbackMin
  rw [hexp]
  simp [hne, hm, jsFalsyNum]

/-- Rule-derived maximum is absent when the rule is absent. -/
theorem ruleMax_none_of_rule_none (e : ArkTypeError) (c : String)
    (hr : e.rule = none) : ruleMax e c = none := by
  unfold ruleMax
  rw [hr]

/-- With no rule-derived value, the max fallback extracts the matched number. -/
theorem fallbackMax_of_match (e : ArkTypeError) (exp : String) (n : Nat)
    (hexp : e.expected = some exp) (hne : exp ≠ "")
    (hm : regexAtMost exp = some n) : fallbackMax e none = some n := by
  unfold fallbackMax
  rw [hexp]
  simp [hne, hm, jsFalsyNum]

/-- Expected-type param for an invalid-type code and truthy expected text. -/
theorem typeParam_some (e : ArkTypeError) (exp : String)
    (hexp : e.expected = some exp) (hne : exp ≠ "") :
    typeParam e ErrorCodes.INVALID_TYPE = some exp := by
  unfold typeParam
  rw [hexp]
  simp [hne]

/-- C7 amended: for min-style and max-style codes the constraint comes from a
present non-zero `rule` value regardless of the expected text; the regex
fallbacks on "at least N" (min side) and "at most N" (max side) text apply
when `rule` is absent (and, by JS falsiness, when it is zero — the first
correction of the counterexample); and for the invalid_type code the
`expected` string is surfaced as params.expected when it is present and
non-empty (an empty string is JS-falsy and is skipped — the second
correction of the counterexample). -/
theorem param_pref_c7_amended (e : ArkTypeError) (code : String) :
    (∀ r, e.rule = some r → r ≠ 0 → isMinCode code = true →
        extractParams e code =
          some { min := some r, max := fallbackMax e (ruleMax e code),
                 expected := typeParam e code }) ∧
    (∀ r, e.rule = some r → r ≠ 0 → isMaxCode code = true →
        extractParams e code =
          some { min := fallbackMin e (ruleMin e code), max := some r,
                 expected := typeParam e code }) ∧
    (∀ exp n, e.rule = none → e.expected = some exp → exp ≠ "" →
        regexAtLeast exp = some n → isMinCode code = true →
        ∃ q, extractParams e code = some q ∧ q.min = some n) ∧
    (∀ exp n, e.rule = none → e.expected = some exp → exp ≠ "" →
        regexAtMost exp = some n → isMaxCode code = true →
        ∃ q, extractParams e code = some q ∧ q.max = some n) ∧
    (∀ exp, code = ErrorCodes.INVALID_TYPE → e.expected = some exp → exp ≠ "" →
        ∃ q, extractParams e code = some q ∧ q.expected = some exp) := by
  refine ⟨?_, ?_, ?_, ?_, ?_⟩
  · intro r hr hr0 hminc
    obtain ⟨k, rfl⟩ := Nat.exists_eq_succ_of_ne_zero hr0
    have h1 : fallbackMin e (ruleMin e code) = some (k + 1) := by
      rw [ruleMin_some e code _ hr hminc]
      exact fallbackMin_keeps e _ rfl
    rw [extractParams_def, h1, if_pos (by simp [IssueParams.nonempty])]
  · intro r hr hr0 hmaxc
    obtain ⟨k, rfl⟩ := Nat.exists_eq_succ_of_ne_zero hr0
    have hminf : isMinCode code = false := isMinCode_false_of_isMaxCode code hmaxc
    have h1 : fallbackMax e (ruleMax e code) = some (k + 1) := by
      rw [ruleMax_some e code _ hr hminf hmaxc]
      exact fallbackMax_keeps e _ rfl
    rw [extractParams_def, h1, if_pos (by simp [IssueParams.nonempty])]
  · intro exp n hr hexp hne hm hminc
    have h1 : fallbackMin e (ruleMin e code) = some n := by
      rw [ruleMin_none_of_rule_none e code hr]
      exact fallbackMin_of_match e exp n hexp hne hm
    rw [extractParams_def, h1, if_pos (by simp [IssueParams.nonempty])]
    exact ⟨_, rfl, rfl⟩
  · intro exp n hr hexp hne hm hmaxc
    have h1 : fallbackMax e (ruleMax e code) = some n := by
      rw [ruleMax_none_of_rule_none e code hr]
      exact fallbackMax_of_match e exp n hexp hne hm
    rw [extractParams_def, h1, if_pos (by simp [IssueParams.nonempty])]
    exact ⟨_, rfl, rfl⟩
  · intro exp hcode hexp hne
    subst hcode
    have h1 : typeParam e ErrorCodes.INVALID_TYPE = some exp :=
      typeParam_some e exp hexp hne
    rw [extractParams_def, h1, if_pos (by simp [IssueParams.nonempty])]
    exact ⟨_, rfl, rfl⟩

/-- Raw failure with a non-zero rule value and a conflicting "at least 5"
phrase in `expected`; the rule value wins. -/
def ruleNineFailure : ArkTypeError :=
  { code := some "minLength", expected := some "at least 5 characters", rule := some 9 }

/-- Raw failure with no rule value and an "at most 7" phrase in `expected`,
exercising the max-side regex fallback. -/
def atMostFailure : ArkTypeError :=
  { code := some "maxLength", expected := some "at most 7 items" }

/-- Witness for the amended C7: with rule 9 present, params.min is 9 even
though the expected text says "at least 5"; and with no rule present,
params.max is regex-extracted as 7 from "at most 7 items". -/
theorem param_pref_c7_amended_witness :
    (extractParams ruleNineFailure ErrorCodes.STRING_MIN =
      some { min := some 9,
             max := fallbackMax ruleNineFailure (ruleMax ruleNineFailure ErrorCodes.STRING_MIN),
             expected := typeParam ruleNineFailure ErrorCodes.STRING_MIN }) ∧
    (∃ q, extractParams atMostFailure ErrorCodes.STRING_MAX = some q ∧ q.max = some 7) :=
  ⟨(param_pref_c7_amended ruleNineFailure ErrorCodes.STRING_MIN).1 9 rfl (by decide) rfl,
    (param_pref_c7_amended atMostFailure ErrorCodes.STRING_MAX).2.2.2.1 "at most 7 items" 7
      rfl rfl (by decide) rfl rfl⟩
